import Mathlib

/-!
Verification development for the Class Whisper study-guide generator.

The application is a browser front end whose core is the `handleGenerate`
pipeline: (1) transcribe an uploaded lecture recording, (2) derive a
structured study guide from the transcript via a JSON-schema call,
(3) derive free-form detailed notes, then assemble a `StudyMaterials`
record and prepend it to a persisted history list.

This file gives a shallow embedding of that core:

* `trimL`, `skipWs`, `strContains` — character-list models of the
  JavaScript string operations `trim`, whitespace skipping and
  `String.prototype.includes` used by the app (ASCII whitespace).
* `Json`, `jsonParse` — a model of the JavaScript `JSON.parse` builtin
  (fuel-indexed recursive-descent parser; numbers keep their lexeme).
* `stripFence` — the markdown code-fence stripping performed on the
  stage-2 response before parsing.
* `AppState`, `Oracle`, `handleGenerate` — the pipeline as a pure
  function of the pre-run component state and an oracle giving the
  outcome of the three remote calls; a `RunTrace` records which remote
  stages were invoked and with which media payload.
* `progressStep` — one tick of the simulated progress indicator,
  with the JavaScript number arithmetic modelled by exact rationals.
* `handleSaveToHistory`, `handleDeleteFromHistory`, `historyLoadResult`
  — the history-list operations and the startup load of the persisted
  blob.
-/

/-- Whitespace test used by the string model (space, tab, newline,
carriage return — the characters relevant to the app's payloads). -/
def isWS (c : Char) : Bool :=
  c == ' ' || c == '\t' || c == '\n' || c == '\r'

/-- Model of JavaScript `String.prototype.trim` on a character list:
drop whitespace from both ends. -/
def trimL (l : List Char) : List Char :=
  ((l.dropWhile isWS).reverse.dropWhile isWS).reverse

/-- `pat` occurs as a prefix of some suffix of `l`. -/
def listContains (pat : List Char) : List Char → Bool
  | [] => pat.isPrefixOf []
  | c :: rest => pat.isPrefixOf (c :: rest) || listContains pat rest

/-- Model of `String.prototype.includes`: `pat` occurs as a contiguous
substring of `s`. -/
def strContains (s pat : String) : Bool :=
  listContains pat.data s.data

/-- JSON values as produced by `JSON.parse`.  Numbers keep their raw
lexeme (their numeric value is never consumed by the app's logic). -/
inductive Json where
  | null : Json
  | bool : Bool → Json
  | num : String → Json
  | str : String → Json
  | arr : List Json → Json
  | obj : List (String × Json) → Json
deriving Repr

/-- Skip leading JSON whitespace. -/
def skipWs : List Char → List Char
  | [] => []
  | c :: rest => if isWS c then skipWs rest else c :: rest

/-- Consume an expected literal tail (e.g. `ull` after `n`). -/
def parseLit (pat l : List Char) : Option (List Char) :=
  if pat.isPrefixOf l then some (l.drop pat.length) else none

/-- Hexadecimal digit value, for `\uXXXX` escapes. -/
def hexVal (c : Char) : Option Nat :=
  if '0' ≤ c ∧ c ≤ '9' then some (c.toNat - 48)
  else if 'a' ≤ c ∧ c ≤ 'f' then some (c.toNat - 87)
  else if 'A' ≤ c ∧ c ≤ 'F' then some (c.toNat - 55)
  else none

/-- Parse the body of a JSON string after the opening quote, handling
the escape sequences accepted by `JSON.parse`; rejects unescaped
control characters and unterminated strings. -/
def parseStrAux : Nat → List Char → Option (List Char × List Char)
  | 0, _ => none
  | _, [] => none
  | f + 1, c :: r =>
    if c = '"' then some ([], r)
    else if c = '\\' then
      match r with
      | [] => none
      | e :: r2 =>
        let esc : Option (Char × List Char) :=
          if e = '"' then some ('"', r2)
          else if e = '\\' then some ('\\', r2)
          else if e = '/' then some ('/', r2)
          else if e = 'b' then some ('\x08', r2)
          else if e = 'f' then some ('\x0C', r2)
          else if e = 'n' then some ('\n', r2)
          else if e = 'r' then some ('\r', r2)
          else if e = 't' then some ('\t', r2)
          else if e = 'u' then
            match r2 with
            | a :: b :: c2 :: d :: r3 =>
              match hexVal a, hexVal b, hexVal c2, hexVal d with
              | some va, some vb, some vc, some vd =>
                some (Char.ofNat (va * 4096 + vb * 256 + vc * 16 + vd), r3)
              | _, _, _, _ => none
            | _ => none
          else none
        match esc with
        | some (ch, r3) =>
          match parseStrAux f r3 with
          | some (cs, r4) => some (ch :: cs, r4)
          | none => none
        | none => none
    else if c.toNat < 32 then none
    else
      match parseStrAux f r with
      | some (cs, r4) => some (c :: cs, r4)
      | none => none

/-- Longest digit run at the head of the list, and the rest. -/
def spanDigits (l : List Char) : List Char × List Char :=
  (l.takeWhile Char.isDigit, l.dropWhile Char.isDigit)

/-- Optional fraction part `.digits`. -/
def parseFrac : List Char → Option (List Char × List Char)
  | '.' :: r =>
    let p := spanDigits r
    if p.1 = [] then none else some ('.' :: p.1, p.2)
  | l => some ([], l)

/-- Optional exponent part `(e|E)(+|-)?digits`. -/
def parseExp : List Char → Option (List Char × List Char)
  | [] => some ([], [])
  | c :: r =>
    if c = 'e' ∨ c = 'E' then
      let sgn : List Char × List Char :=
        match r with
        | '+' :: r2 => (['+'], r2)
        | '-' :: r2 => (['-'], r2)
        | _ => ([], r)
      let p := spanDigits sgn.2
      if p.1 = [] then none else some (c :: (sgn.1 ++ p.1), p.2)
    else some ([], c :: r)

/-- Parse a JSON number (the head char is `-` or a digit); enforces the
JSON grammar's no-leading-zero rule. -/
def parseNum (l : List Char) : Option (Json × List Char) :=
  let sl : List Char × List Char :=
    match l with
    | '-' :: r => (['-'], r)
    | _ => ([], l)
  let ds := spanDigits sl.2
  if ds.1 = [] then none
  else if 2 ≤ ds.1.length ∧ ds.1.headD 'x' = '0' then none
  else
    match parseFrac ds.2 with
    | none => none
    | some fr =>
      match parseExp fr.2 with
      | none => none
      | some ex =>
        some (Json.num (String.mk (sl.1 ++ ds.1 ++ fr.1 ++ ex.1)), ex.2)

mutual

/-- Fuel-indexed recursive-descent parser for one JSON value. -/
def parseVal : Nat → List Char → Option (Json × List Char)
  | 0, _ => none
  | f + 1, l =>
    match skipWs l with
    | [] => none
    | c :: rest =>
      if c = 'n' then
        (parseLit ("ull".data) rest).map (fun r => (Json.null, r))
      else if c = 't' then
        (parseLit ("rue".data) rest).map (fun r => (Json.bool true, r))
      else if c = 'f' then
        (parseLit ("alse".data) rest).map (fun r => (Json.bool false, r))
      else if c = '"' then
        (parseStrAux (rest.length + 1) rest).map
          (fun p => (Json.str (String.mk p.1), p.2))
      else if c = '[' then
        match skipWs rest with
        | [] => none
        | c2 :: r2 =>
          if c2 = ']' then some (Json.arr [], r2)
          else (parseArrItems f (c2 :: r2)).map (fun p => (Json.arr p.1, p.2))
      else if c = '\x7b' then
        match skipWs rest with
        | [] => none
        | c2 :: r2 =>
          if c2 = '\x7d' then some (Json.obj [], r2)
          else (parseObjItems f (c2 :: r2)).map (fun p => (Json.obj p.1, p.2))
      else if c = '-' ∨ c.isDigit then
        parseNum (c :: rest)
      else none

/-- Comma-separated array elements up to the closing bracket. -/
def parseArrItems : Nat → List Char → Option (List Json × List Char)
  | 0, _ => none
  | f + 1, l =>
    match parseVal f l with
    | none => none
    | some (v, r) =>
      match skipWs r with
      | [] => none
      | c :: r2 =>
        if c = ',' then
          (parseArrItems f r2).map (fun p => (v :: p.1, p.2))
        else if c = ']' then some ([v], r2)
        else none

/-- Comma-separated `"key": value` members up to the closing brace. -/
def parseObjItems : Nat → List Char → Option (List (String × Json) × List Char)
  | 0, _ => none
  | f + 1, l =>
    match skipWs l with
    | [] => none
    | c :: rest =>
      if c = '"' then
        match parseStrAux (rest.length + 1) rest with
        | none => none
        | some (ks, r1) =>
          match skipWs r1 with
          | [] => none
          | c2 :: r2 =>
            if c2 = ':' then
              match parseVal f r2 with
              | none => none
              | some (v, r3) =>
                match skipWs r3 with
                | [] => none
                | c3 :: r4 =>
                  if c3 = ',' then
                    (parseObjItems f r4).map
                      (fun p => ((String.mk ks, v) :: p.1, p.2))
                  else if c3 = '\x7d' then some ([(String.mk ks, v)], r4)
                  else none
            else none
      else none

end

/-- Model of the `JSON.parse` builtin: parse one value and require
that only whitespace remains; any failure is an exception (`none`). -/
def jsonParse (s : String) : Option Json :=
  match parseVal (2 * s.data.length + 8) s.data with
  | some (j, rest) => if skipWs rest = [] then some j else none
  | none => none

/-- The code-fence stripping applied to the stage-2 response text
(`handleGenerate`, the `jsonText` preparation): trim, then if the text
starts with a ```json fence drop the first 7 and last 3 characters,
else if it starts with a bare ``` fence drop the first 3 and last 3
characters (the JavaScript `slice(7, -3)` / `slice(3, -3)`), then trim
again. -/
def stripFenceL (l : List Char) : List Char :=
  if ("```json".data).isPrefixOf (trimL l) then
    trimL (((trimL l).take ((trimL l).length - 3)).drop 7)
  else if ("```".data).isPrefixOf (trimL l) then
    trimL (((trimL l).take ((trimL l).length - 3)).drop 3)
  else trimL l

/-- String-level wrapper for `stripFenceL`. -/
def stripFence (s : String) : String :=
  String.mk (stripFenceL s.data)

/-- A payload wrapped in a language-tagged markdown code fence. -/
def wrapJsonFence (p : String) : String :=
  "```json\n" ++ p ++ "\n```"

/-- A payload wrapped in an untagged markdown code fence. -/
def wrapBareFence (p : String) : String :=
  "```\n" ++ p ++ "\n```"

/-- The in-memory encoded media payload (`audioData` in the app):
base64 content plus mime type, produced once per file selection. -/
structure AudioData where
  data : String
  mimeType : String
deriving Repr, DecidableEq

/-- The assembled result record.  The five structured fields come from
spreading the stage-2 parsed JSON object (`{...parsedStudyGuide}`), so
at runtime each of them is the corresponding JSON property when present
and absent (`undefined`) otherwise; `transcript` and `detailedNotes`
are set explicitly from the stage-1 and stage-3 texts. -/
structure StudyMaterials where
  summary : Option Json
  keySections : Option Json
  formulas : Option Json
  glossary : Option Json
  examQuestions : Option Json
  transcript : String
  detailedNotes : String
deriving Repr

/-- One persisted history entry. -/
structure HistoryItem where
  id : Nat
  filename : String
  materials : StudyMaterials
deriving Repr

/-- The `{message, retryable}` error payload surfaced to the UI. -/
structure PipelineError where
  message : String
  retryable : Bool
deriving Repr, DecidableEq

/-- The component state touched by the pipeline: the encoded media, the
selected file name, the processing flag, the displayed result record,
the error payload, the progress value and the history list. -/
structure AppState where
  audioData : Option AudioData
  mediaFile : Option String
  isProcessing : Bool
  studyMaterials : Option StudyMaterials
  error : Option PipelineError
  progress : ℚ
  history : List HistoryItem

/-- Outcome of one remote `generateContent` call: the response text on
success, or the thrown error's message on transport failure. -/
inductive CallResult where
  | ok : String → CallResult
  | fail : String → CallResult
deriving Repr, DecidableEq

/-- The outcomes the three remote calls of one run would produce. -/
structure Oracle where
  transcription : CallResult
  studyGuide : CallResult
  detailedNotes : CallResult

/-- Which remote stages a run invoked: the media payload sent to the
stage-1 transcription call (`none` when stage 1 was never reached) and
whether the stage-2 and stage-3 calls were made. -/
structure RunTrace where
  stage1Media : Option AudioData
  stage2Called : Bool
  stage3Called : Bool
deriving Repr, DecidableEq

/-- Trace of a run that made no remote call. -/
def emptyTrace : RunTrace :=
  { stage1Media := none, stage2Called := false, stage3Called := false }

/-- Error message of the missing-credential early return. -/
def msgNoApiKey : String :=
  "API_KEY environment variable is not set."

/-- Error message of the media-not-ready early return. -/
def msgNotReady : String :=
  "Audio data not ready. Please wait a moment after selecting a file or try re-selecting."

/-- Message of the error thrown on an empty or whitespace-only transcript. -/
def msgEmptyTranscript : String :=
  "Transcription failed: The model returned an empty transcript. The audio might be silent or in an unsupported format."

/-- Message of the error thrown when the stage-2 response fails to parse. -/
def msgMalformed : String :=
  "Failed to process the study guide from the AI. The response was not in the expected JSON format. Please try again."

/-- The rewritten user-facing message for network-layer failures. -/
def msgNetwork : String :=
  "A network error occurred while communicating with the AI. Please check your internet connection."

/-- The catch-block classification of a thrown error: network-marker
messages are rewritten and stay retryable, the empty-transcript marker
makes the failure non-retryable, anything else passes through as a
retryable failure. -/
def classifyError (m : String) : PipelineError :=
  if strContains m ("xhr error") || strContains m ("500") then
    { message := msgNetwork, retryable := true }
  else if strContains m ("Transcription failed") then
    { message := m, retryable := false }
  else
    { message := m, retryable := true }

/-- The `finally` block: stop the progress timer, clear the processing
flag and reset the progress indicator. -/
def finalizeRun (st : AppState) : AppState :=
  { st with isProcessing := false, progress := 0 }

/-- The catch block followed by the `finally` block. -/
def failWith (st : AppState) (m : String) : AppState :=
  finalizeRun { st with error := some (classifyError m) }

/-- Property lookup on a parsed JSON value, as object spread sees it:
the last binding of a key wins (`JSON.parse` keeps the last duplicate);
a non-object value contributes no named properties. -/
def jlookup (k : String) : Json → Option Json
  | Json.obj kvs => kvs.reverse.lookup k
  | _ => none

/-- `{...parsedStudyGuide, transcript, detailedNotes}`: the assembled
`StudyMaterials` record. -/
def assembleMaterials (parsed : Json) (transcript notes : String) : StudyMaterials :=
  { summary := jlookup ("summary") parsed
    keySections := jlookup ("keySections") parsed
    formulas := jlookup ("formulas") parsed
    glossary := jlookup ("glossary") parsed
    examQuestions := jlookup ("examQuestions") parsed
    transcript := transcript
    detailedNotes := notes }

/-- `handleSaveToHistory`: build a new entry with the current time as
id and prepend it to the history list. -/
def handleSaveToHistory (now : Nat) (filename : String)
    (materials : StudyMaterials) (history : List HistoryItem) : List HistoryItem :=
  { id := now, filename := filename, materials := materials } :: history

/-- `handleDeleteFromHistory`: keep exactly the entries whose id
differs from the deleted one. -/
def handleDeleteFromHistory (i : Nat) (history : List HistoryItem) : List HistoryItem :=
  history.filter (fun item => item.id != i)

/-- The startup history-load effect: a missing blob leaves the initial
empty history; a non-empty blob is `JSON.parse`d, a parse failure is
caught, leaves the initial empty history and removes the stored blob;
an empty-string blob is falsy, so it is neither parsed nor removed.
Returns (the parsed value placed into the history state if any, the
blob still in storage afterwards). -/
def historyLoadResult (stored : Option String) : Option Json × Option String :=
  match stored with
  | none => (none, none)
  | some s =>
    if s = "" then (none, some s)
    else
      match jsonParse s with
      | some j => (some j, some s)
      | none => (none, none)

/-- One tick of the simulated progress indicator
(`startProgressSimulation`): at or above 99 the timer stops and the
value pins to 99; below 99 the value advances by one twentieth of the
remaining gap to 99.  JavaScript number arithmetic is modelled by
exact rationals. -/
def progressStep (prev : ℚ) : ℚ :=
  if prev ≥ 99 then 99 else prev + (99 - prev) * (5 / 100)

/-- The `handleGenerate` pipeline as a pure function of the credential,
the current time, the pre-run state and the oracle of remote-call
outcomes.  Mirrors the source's control flow: the credential and
readiness guards return early; otherwise the run clears stale result,
error and progress state, invokes up to three remote calls in order,
fails through the catch/finally blocks, and on full success assembles
the record, exposes it and prepends it to the history. -/
def handleGenerate (apiKey : Option String) (now : Nat) (o : Oracle)
    (st : AppState) : AppState × RunTrace :=
  match apiKey with
  | none =>
    ({ st with error := some { message := msgNoApiKey, retryable := false } },
      emptyTrace)
  | some _ =>
    match st.audioData, st.mediaFile with
    | some audio, some fname =>
      let st1 : AppState :=
        { st with isProcessing := true, error := none,
                  studyMaterials := none, progress := 0 }
      match o.transcription with
      | CallResult.fail m =>
        (failWith st1 m,
          { stage1Media := some audio, stage2Called := false, stage3Called := false })
      | CallResult.ok transcript =>
        if trimL transcript.data = [] then
          (failWith st1 msgEmptyTranscript,
            { stage1Media := some audio, stage2Called := false, stage3Called := false })
        else
          match o.studyGuide with
          | CallResult.fail m =>
            (failWith st1 m,
              { stage1Media := some audio, stage2Called := true, stage3Called := false })
          | CallResult.ok sgText =>
            match jsonParse (stripFence sgText) with
            | none =>
              (failWith st1 msgMalformed,
                { stage1Media := some audio, stage2Called := true, stage3Called := false })
            | some parsed =>
              match o.detailedNotes with
              | CallResult.fail m =>
                (failWith st1 m,
                  { stage1Media := some audio, stage2Called := true, stage3Called := true })
              | CallResult.ok notes =>
                let fm := assembleMaterials parsed transcript notes
                (finalizeRun
                  { st1 with studyMaterials := some fm,
                             history := handleSaveToHistory now fname fm st.history },
                  { stage1Media := some audio, stage2Called := true, stage3Called := true })
    | _, _ =>
      ({ st with error := some { message := msgNotReady, retryable := true } },
        emptyTrace)

/-- Concrete encoded media payload used by the witness runs. -/
def wAudio : AudioData :=
  { data := "b64", mimeType := "audio/mp3" }

/-- Concrete ready pre-run state used by the witness runs. -/
def witReadyState : AppState :=
  { audioData := some wAudio
    mediaFile := some "lec.mp3"
    isProcessing := false
    studyMaterials := none
    error := none
    progress := 0
    history := [] }

/-- Ready state whose media has not finished encoding. -/
def witNoAudioState : AppState :=
  { witReadyState with audioData := none }

/-- Oracle whose transcription stage returns a whitespace-only text. -/
def witOracleEmptyT : Oracle :=
  { transcription := CallResult.ok "   "
    studyGuide := CallResult.ok "x"
    detailedNotes := CallResult.ok "y" }

/-- Oracle whose stage-2 response is the empty JSON object. -/
def cexOracle : Oracle :=
  { transcription := CallResult.ok "lecture text"
    studyGuide := CallResult.ok "\x7b\x7d"
    detailedNotes := CallResult.ok "notes" }

/-- Oracle whose transcription call fails with a transport error whose
message carries a network marker. -/
def cexTransportOracle : Oracle :=
  { transcription := CallResult.fail "xhr error"
    studyGuide := CallResult.ok "x"
    detailedNotes := CallResult.ok "y" }

/-- Oracle whose transcription call fails with a plain transport error. -/
def witTransportOracle : Oracle :=
  { transcription := CallResult.fail "boom"
    studyGuide := CallResult.ok "x"
    detailedNotes := CallResult.ok "y" }

/-- Oracle whose stage-2 response is not JSON. -/
def witMalformedOracle : Oracle :=
  { transcription := CallResult.ok "lecture text"
    studyGuide := CallResult.ok "not json"
    detailedNotes := CallResult.ok "y" }

/-- A fully populated result record from a previous run. -/
def witPriorMaterials : StudyMaterials :=
  { summary := some (Json.str "old summary")
    keySections := some (Json.arr [])
    formulas := some (Json.arr [])
    glossary := some (Json.arr [])
    examQuestions := some (Json.arr [])
    transcript := "old transcript"
    detailedNotes := "old notes" }

/-- Ready state that is still displaying a previous run's record. -/
def cexPriorState : AppState :=
  { witReadyState with studyMaterials := some witPriorMaterials }

/-- A one-entry history list for the history witnesses. -/
def witHistory : List HistoryItem :=
  [{ id := 1, filename := "a.mp3", materials := witPriorMaterials }]

/-- A simple JSON object payload for the fence witnesses. -/
def jsonPayloadW : String := "\x7b\"a\": 1\x7d"

/-- C1: a successful transcription whose text is empty or
whitespace-only ends the run in the Failed state with the non-retryable
empty-transcript error, exposes no record, and makes no stage-2 or
stage-3 remote call. -/
theorem claim_C1_empty_transcript (k : String) (now : Nat) (o : Oracle)
    (st : AppState) (a : AudioData) (f t : String)
    (hA : st.audioData = some a) (hF : st.mediaFile = some f)
    (hT : o.transcription = CallResult.ok t) (hE : trimL t.data = []) :
    (handleGenerate (some k) now o st).1.error =
      some { message := msgEmptyTranscript, retryable := false } ∧
    (handleGenerate (some k) now o st).1.studyMaterials = none ∧
    (handleGenerate (some k) now o st).2.stage2Called = false ∧
    (handleGenerate (some k) now o st).2.stage3Called = false := by
  have hc : classifyError msgEmptyTranscript =
      { message := msgEmptyTranscript, retryable := false } := by decide
  simp [handleGenerate, hA, hF, hT, hE, failWith, finalizeRun, hc]

/-- C1 witness: the whitespace-only transcript `"   "`. -/
theorem claim_C1_witness :
    (handleGenerate (some "k") 0 witOracleEmptyT witReadyState).1.error =
      some { message := msgEmptyTranscript, retryable := false } ∧
    (handleGenerate (some "k") 0 witOracleEmptyT witReadyState).1.studyMaterials = none ∧
    (handleGenerate (some "k") 0 witOracleEmptyT witReadyState).2.stage2Called = false ∧
    (handleGenerate (some "k") 0 witOracleEmptyT witReadyState).2.stage3Called = false :=
  claim_C1_empty_transcript "k" 0 witOracleEmptyT witReadyState wAudio
    "lec.mp3" "   " rfl rfl rfl (by decide)

/-- C5: a missing backend credential fails immediately with the
non-retryable configuration error, and unencoded media fails
immediately with the retryable readiness error; both leave the rest of
the state (including the processing flag) untouched and make zero
remote calls. -/
theorem claim_C5_preconditions (apiKey : Option String) (now : Nat)
    (o : Oracle) (st : AppState) :
    (apiKey = none →
      handleGenerate apiKey now o st =
        ({ st with error := some { message := msgNoApiKey, retryable := false } },
          emptyTrace)) ∧
    (∀ k, apiKey = some k → st.audioData = none →
      handleGenerate apiKey now o st =
        ({ st with error := some { message := msgNotReady, retryable := true } },
          emptyTrace)) := by
  constructor
  · intro h; subst h; rfl
  · intro k hk hA
    subst hk
    rcases hm : st.mediaFile with _ | f <;> simp [handleGenerate, hA, hm]

/-- C5 witness: a run with no credential and a run with unencoded
media. -/
theorem claim_C5_witness :
    handleGenerate none 0 witOracleEmptyT witReadyState =
      ({ witReadyState with
          error := some { message := msgNoApiKey, retryable := false } },
        emptyTrace) ∧
    handleGenerate (some "k") 0 witOracleEmptyT witNoAudioState =
      ({ witNoAudioState with
          error := some { message := msgNotReady, retryable := true } },
        emptyTrace) :=
  ⟨(claim_C5_preconditions none 0 witOracleEmptyT witReadyState).1 rfl,
   (claim_C5_preconditions (some "k") 0 witOracleEmptyT witNoAudioState).2
      "k" rfl rfl⟩

/-- C7 counterexample: the simulated progress tick does not reduce the
remaining gap to 100 by any fixed fraction — the code reduces the gap
to 99 (`increment = (99 - prev) * 0.05`).  Instantiating a putative
fixed fraction at p = 0 and p = 50 is contradictory. -/
theorem claim_C7_counterexample :
    ¬ ∃ f : ℚ, ∀ p : ℚ, 0 ≤ p → p < 99 →
      100 - progressStep p = (100 - p) * (1 - f) := by
  rintro ⟨f, hf⟩
  have h0 := hf 0 le_rfl (by norm_num)
  have h50 := hf 50 (by norm_num) (by norm_num)
  rw [progressStep] at h0 h50
  norm_num at h0 h50
  linarith

/-- C7 (amended): each tick with 0 ≤ p < 99 strictly increases the
progress value while keeping it strictly below 99, reducing the
remaining gap to 99 by the fixed fraction 1/20; any p ≥ 99 maps
to 99. -/
theorem claim_C7_progress_step (p : ℚ) :
    (0 ≤ p → p < 99 →
      p < progressStep p ∧ progressStep p < 99 ∧
      99 - progressStep p = (99 - p) * (19 / 20)) ∧
    (99 ≤ p → progressStep p = 99) := by
  constructor
  · intro _ h99
    rw [progressStep, if_neg (by exact not_le.mpr h99)]
    refine ⟨by linarith, by linarith, by ring⟩
  · intro h
    rw [progressStep, if_pos h]

/-- C7 witness: the tick at p = 50. -/
theorem claim_C7_witness :
    (50 : ℚ) < progressStep 50 ∧ progressStep 50 < 99 ∧
    99 - progressStep 50 = (99 - 50) * (19 / 20) :=
  (claim_C7_progress_step 50).1 (by norm_num) (by norm_num)

/-- C8: appending a history entry and listing returns the new entry
first followed by the prior list unchanged; removing an id keeps
exactly the entries with a different id, in their original relative
order (the result is a sublist of the original). -/
theorem claim_C8_history_append_remove (now : Nat) (fname : String)
    (m : StudyMaterials) (h : List HistoryItem) (i : Nat) :
    (handleSaveToHistory now fname m h).head? =
      some { id := now, filename := fname, materials := m } ∧
    (handleSaveToHistory now fname m h).tail = h ∧
    (∀ e, e ∈ handleDeleteFromHistory i h ↔ e ∈ h ∧ e.id ≠ i) ∧
    List.Sublist (handleDeleteFromHistory i h) h := by
  refine ⟨rfl, rfl, ?_, List.filter_sublist h⟩
  intro e
  simp [handleDeleteFromHistory, List.mem_filter]

/-- C10: removing an absent id leaves the history unchanged, removal is
idempotent, and one removal deletes every entry carrying the id. -/
theorem claim_C10_remove_absent_idempotent (i : Nat) (h : List HistoryItem) :
    ((∀ e ∈ h, e.id ≠ i) → handleDeleteFromHistory i h = h) ∧
    handleDeleteFromHistory i (handleDeleteFromHistory i h) =
      handleDeleteFromHistory i h ∧
    (∀ e ∈ handleDeleteFromHistory i h, e.id ≠ i) := by
  refine ⟨?_, ?_, ?_⟩
  · intro hall
    apply List.filter_eq_self.mpr
    intro a ha
    simpa using hall a ha
  · apply List.filter_eq_self.mpr
    intro a ha
    exact (List.mem_filter.mp ha).2
  · intro e he
    have := (List.mem_filter.mp he).2
    simpa using this

/-- C10 witness: removing the absent id 2 from a one-entry history. -/
theorem claim_C10_witness :
    handleDeleteFromHistory 2 witHistory = witHistory :=
  (claim_C10_remove_absent_idempotent 2 witHistory).1 (by
    intro e he
    simp [witHistory] at he
    subst he
    decide)

/-- C9 counterexample: the empty-string blob is not valid JSON, yet the
load guard treats it as falsy — the history stays empty but the blob is
left in storage rather than removed. -/
theorem claim_C9_counterexample :
    jsonParse "" = none ∧
    historyLoadResult (some "") = (none, some "") ∧
    (historyLoadResult (some "")).2 ≠ none := by
  refine ⟨rfl, rfl, by simp [historyLoadResult]⟩

/-- C9 (amended): loading a corrupt (unparseable) blob yields the
initial empty history and no failure; the blob is removed from storage
whenever it is non-empty (the empty-string blob is skipped by the
falsiness guard and left in place). -/
theorem claim_C9_corrupt_blob (s : String) (hp : jsonParse s = none) :
    (historyLoadResult (some s)).1 = none ∧
    (s ≠ "" → historyLoadResult (some s) = (none, none)) := by
  constructor
  · by_cases h : s = ""
    · subst h; rfl
    · simp [historyLoadResult, h, hp]
  · intro h
    simp [historyLoadResult, h, hp]

/-- C9 witness: the corrupt non-empty blob `"corrupt"`. -/
theorem claim_C9_witness :
    (historyLoadResult (some "corrupt")).1 = none ∧
    ("corrupt" ≠ "" → historyLoadResult (some "corrupt") = (none, none)) :=
  claim_C9_corrupt_blob "corrupt" rfl

/-- C2 counterexample: a stage-1 transport failure ends in the
retryable Failed state, but the previously displayed record is not
left unchanged — the run clears it to absent at start
(`setStudyMaterials(null)`), so a state that was displaying a record
displays none after the failure. -/
theorem claim_C2_counterexample :
    (handleGenerate (some "k") 0 cexTransportOracle cexPriorState).1.error =
      some { message := msgNetwork, retryable := true } ∧
    cexPriorState.studyMaterials = some witPriorMaterials ∧
    (handleGenerate (some "k") 0 cexTransportOracle cexPriorState).1.studyMaterials =
      none := by
  exact ⟨rfl, rfl, rfl⟩

/-- C2 (amended): a transport failure at any stage whose message does
not contain the empty-transcript marker ends the run in Failed with
retryable = true, and the run never exposes a partially-filled record —
the displayed record is cleared to absent at run start and stays absent
through the failure. -/
theorem claim_C2_transport_failure (k : String) (now : Nat) (o : Oracle)
    (st : AppState) (a : AudioData) (f m : String)
    (hA : st.audioData = some a) (hF : st.mediaFile = some f)
    (hm : strContains m ("Transcription failed") = false)
    (hfail :
      o.transcription = CallResult.fail m ∨
      (∃ t, o.transcription = CallResult.ok t ∧ trimL t.data ≠ [] ∧
        (o.studyGuide = CallResult.fail m ∨
          (∃ s2 j, o.studyGuide = CallResult.ok s2 ∧
            jsonParse (stripFence s2) = some j ∧
            o.detailedNotes = CallResult.fail m)))) :
    ∃ e, (handleGenerate (some k) now o st).1.error = some e ∧
      e.retryable = true ∧
      (handleGenerate (some k) now o st).1.studyMaterials = none := by
  have hcl : (classifyError m).retryable = true := by
    unfold classifyError
    by_cases h1 : (strContains m ("xhr error") || strContains m ("500")) = true
    · simp [h1]
    · simp [h1, hm]
  rcases hfail with h | ⟨t, ht, htr, h | ⟨s2, j, hs2, hj, h3⟩⟩
  · exact ⟨classifyError m, by simp [handleGenerate, hA, hF, h, failWith, finalizeRun],
      hcl, by simp [handleGenerate, hA, hF, h, failWith, finalizeRun]⟩
  · exact ⟨classifyError m,
      by simp [handleGenerate, hA, hF, ht, htr, h, failWith, finalizeRun],
      hcl,
      by simp [handleGenerate, hA, hF, ht, htr, h, failWith, finalizeRun]⟩
  · exact ⟨classifyError m,
      by simp [handleGenerate, hA, hF, ht, htr, hs2, hj, h3, failWith, finalizeRun],
      hcl,
      by simp [handleGenerate, hA, hF, ht, htr, hs2, hj, h3, failWith, finalizeRun]⟩

/-- C2 witness: a stage-1 transport failure with message `"boom"`. -/
theorem claim_C2_witness :
    ∃ e, (handleGenerate (some "k") 0 witTransportOracle witReadyState).1.error =
        some e ∧
      e.retryable = true ∧
      (handleGenerate (some "k") 0 witTransportOracle witReadyState).1.studyMaterials =
        none :=
  claim_C2_transport_failure "k" 0 witTransportOracle witReadyState wAudio
    "lec.mp3" "boom" rfl rfl (by decide) (Or.inl rfl)

/-- C4 counterexample: a run whose stage-2 response is the valid JSON
object `{}` reaches the Completed state (no error, record exposed),
yet the record's `summary` field is absent — the code spreads the
parsed JSON into the record without validating that the five
structured fields are present. -/
theorem claim_C4_counterexample :
    (handleGenerate (some "k") 0 cexOracle witReadyState).1.error = none ∧
    (handleGenerate (some "k") 0 cexOracle witReadyState).1.studyMaterials =
      some (assembleMaterials (Json.obj []) "lecture text" "notes") ∧
    (assembleMaterials (Json.obj []) "lecture text" "notes").summary = none := by
  exact ⟨rfl, rfl, rfl⟩

/-- C4 (amended): every run that reaches Completed did so through three
successful remote calls and a successful parse; its record is exactly
the parsed stage-2 JSON spread together with the non-empty stage-1
transcript and the stage-3 notes.  Each structured field is populated
exactly when the parsed JSON provides the corresponding property; the
code performs no validation beyond JSON parsing. -/
theorem claim_C4_completed_assembly (apiKey : Option String) (now : Nat)
    (o : Oracle) (st : AppState) (fm : StudyMaterials)
    (hE : (handleGenerate apiKey now o st).1.error = none)
    (hM : (handleGenerate apiKey now o st).1.studyMaterials = some fm) :
    ∃ t s2 notes j,
      o.transcription = CallResult.ok t ∧
      o.studyGuide = CallResult.ok s2 ∧
      o.detailedNotes = CallResult.ok notes ∧
      jsonParse (stripFence s2) = some j ∧
      fm = assembleMaterials j t notes ∧
      trimL t.data ≠ [] ∧
      fm.transcript = t := by
  rcases apiKey with _ | k
  · simp [handleGenerate] at hE
  · rcases hA : st.audioData with _ | a
    · rcases hF : st.mediaFile with _ | f <;>
        simp [handleGenerate, hA, hF] at hE
    · rcases hF : st.mediaFile with _ | f
      · simp [handleGenerate, hA, hF] at hE
      · rcases hT : o.transcription with t | m
        · by_cases hTr : trimL t.data = []
          · simp [handleGenerate, hA, hF, hT, hTr, failWith, finalizeRun] at hE
          · rcases hSG : o.studyGuide with s2 | m
            · rcases hP : jsonParse (stripFence s2) with _ | j
              · simp [handleGenerate, hA, hF, hT, hTr, hSG, hP, failWith,
                  finalizeRun] at hE
              · rcases hDN : o.detailedNotes with notes | m
                · have hM' : assembleMaterials j t notes = fm := by
                    simpa [handleGenerate, hA, hF, hT, hTr, hSG, hP, hDN,
                      finalizeRun] using hM
                  exact ⟨t, s2, notes, j, rfl, rfl, rfl, hP, hM'.symm, hTr,
                    by rw [← hM']; rfl⟩
                · simp [handleGenerate, hA, hF, hT, hTr, hSG, hP, hDN, failWith,
                    finalizeRun] at hE
            · simp [handleGenerate, hA, hF, hT, hTr, hSG, failWith,
                finalizeRun] at hE
        · simp [handleGenerate, hA, hF, hT, failWith, finalizeRun] at hE

/-- C4 witness: the Completed run of the counterexample oracle,
characterized by the amended theorem. -/
theorem claim_C4_witness :
    ∃ t s2 notes j,
      cexOracle.transcription = CallResult.ok t ∧
      cexOracle.studyGuide = CallResult.ok s2 ∧
      cexOracle.detailedNotes = CallResult.ok notes ∧
      jsonParse (stripFence s2) = some j ∧
      assembleMaterials (Json.obj []) "lecture text" "notes" =
        assembleMaterials j t notes ∧
      trimL t.data ≠ [] ∧
      (assembleMaterials (Json.obj []) "lecture text" "notes").transcript = t :=
  claim_C4_completed_assembly (some "k") 0 cexOracle witReadyState
    (assembleMaterials (Json.obj []) "lecture text" "notes") rfl rfl

/-- `handleGenerate` never modifies the encoded media or the selected
file name: the retry action can always reuse them. -/
theorem handleGenerate_preserves_media (apiKey : Option String) (now : Nat)
    (o : Oracle) (st : AppState) :
    (handleGenerate apiKey now o st).1.audioData = st.audioData ∧
    (handleGenerate apiKey now o st).1.mediaFile = st.mediaFile := by
  constructor <;>
    (unfold handleGenerate failWith finalizeRun
     repeat' split) <;> rfl

/-- With a credential and a ready state, a run always enters stage 1,
sending exactly the state's encoded media to the transcription call. -/
theorem handleGenerate_stage1_media (k : String) (now : Nat) (o : Oracle)
    (st : AppState) (a : AudioData) (f : String)
    (hA : st.audioData = some a) (hF : st.mediaFile = some f) :
    (handleGenerate (some k) now o st).2.stage1Media = some a := by
  unfold handleGenerate failWith finalizeRun
  rw [hA, hF]
  repeat' split
  all_goals first | rfl | simp_all

/-- Stage invocation is prefix-closed: a run that invoked stage 2
invoked stage 1, and a run that invoked stage 3 invoked stage 2 — the
pipeline always starts from stage 1 and never resumes mid-way. -/
theorem handleGenerate_trace_mono (apiKey : Option String) (now : Nat)
    (o : Oracle) (st : AppState) :
    ((handleGenerate apiKey now o st).2.stage2Called = true →
      (handleGenerate apiKey now o st).2.stage1Media ≠ none) ∧
    ((handleGenerate apiKey now o st).2.stage3Called = true →
      (handleGenerate apiKey now o st).2.stage2Called = true) := by
  constructor <;>
    (unfold handleGenerate failWith finalizeRun
     repeat' split) <;> simp [emptyTrace]

/-- C6: after a retryable failure, the failed run has left the encoded
media and file name untouched, and re-invoking the pipeline (the retry
action is the same `handleGenerate`) sends that same media to the
stage-1 transcription call — re-entering from the top, with stage
invocation prefix-closed (never resuming at a later stage). -/
theorem claim_C6_retry_from_stage1 (k1 : Option String) (now1 : Nat)
    (o1 : Oracle) (st : AppState) (k2 : String) (now2 : Nat) (o2 : Oracle)
    (a : AudioData) (f : String) (e : PipelineError)
    (hA : st.audioData = some a) (hF : st.mediaFile = some f)
    (_hFail : (handleGenerate k1 now1 o1 st).1.error = some e)
    (_hRetry : e.retryable = true) :
    (handleGenerate k1 now1 o1 st).1.audioData = some a ∧
    (handleGenerate k1 now1 o1 st).1.mediaFile = some f ∧
    (handleGenerate (some k2) now2 o2
        (handleGenerate k1 now1 o1 st).1).2.stage1Media = some a ∧
    ((handleGenerate (some k2) now2 o2
        (handleGenerate k1 now1 o1 st).1).2.stage3Called = true →
      (handleGenerate (some k2) now2 o2
        (handleGenerate k1 now1 o1 st).1).2.stage2Called = true) := by
  have hp := handleGenerate_preserves_media k1 now1 o1 st
  have hA1 : (handleGenerate k1 now1 o1 st).1.audioData = some a := by
    rw [hp.1, hA]
  have hF1 : (handleGenerate k1 now1 o1 st).1.mediaFile = some f := by
    rw [hp.2, hF]
  exact ⟨hA1, hF1,
    handleGenerate_stage1_media k2 now2 o2 _ a f hA1 hF1,
    (handleGenerate_trace_mono (some k2) now2 o2 _).2⟩

/-- C6 witness: retrying after a stage-1 transport failure. -/
theorem claim_C6_witness :
    (handleGenerate (some "k") 0 witTransportOracle witReadyState).1.audioData =
      some wAudio ∧
    (handleGenerate (some "k") 0 witTransportOracle witReadyState).1.mediaFile =
      some "lec.mp3" ∧
    (handleGenerate (some "k") 1 cexOracle
        (handleGenerate (some "k") 0 witTransportOracle witReadyState).1).2.stage1Media =
      some wAudio ∧
    ((handleGenerate (some "k") 1 cexOracle
        (handleGenerate (some "k") 0 witTransportOracle witReadyState).1).2.stage3Called = true →
      (handleGenerate (some "k") 1 cexOracle
        (handleGenerate (some "k") 0 witTransportOracle witReadyState).1).2.stage2Called = true) :=
  claim_C6_retry_from_stage1 (some "k") 0 witTransportOracle witReadyState
    "k" 1 cexOracle wAudio "lec.mp3" { message := "boom", retryable := true }
    rfl rfl rfl rfl

/-- `String.append` concatenates the underlying character lists. -/
theorem string_data_append (a b : String) : (a ++ b).data = a.data ++ b.data := by
  cases a; cases b; rfl

theorem trimL_cons_ws (c : Char) (l : List Char) (h : isWS c = true) :
    trimL (c :: l) = trimL l := by
  simp [trimL, List.dropWhile_cons, h]

theorem dropWhile_concat_char (p : Char → Bool) (l : List Char) (c : Char) :
    List.dropWhile p (l ++ [c]) =
      if List.dropWhile p l = [] then List.dropWhile p [c]
      else List.dropWhile p l ++ [c] := by
  induction l with
  | nil => simp
  | cons a as ih =>
    by_cases h : p a
    · simpa [List.dropWhile_cons, h] using ih
    · simp [List.dropWhile_cons, h]

theorem trimL_concat_ws (c : Char) (l : List Char) (h : isWS c = true) :
    trimL (l ++ [c]) = trimL l := by
  unfold trimL
  rw [dropWhile_concat_char]
  by_cases h0 : List.dropWhile isWS l = []
  · simp [h0, List.dropWhile_cons, h]
  · simp only [if_neg h0]
    simp [List.reverse_append, List.dropWhile_cons, h]

theorem trimL_fenced (c d : Char) (l : List Char) (hc : isWS c = false)
    (hd : isWS d = false) :
    trimL (c :: (l ++ [d])) = c :: (l ++ [d]) := by
  unfold trimL
  simp [List.dropWhile_cons, hc, hd, List.reverse_append]

theorem fence3_false_of (l : List Char)
    (h : ("```".data).isPrefixOf l = false) :
    ("```json".data).isPrefixOf l = false := by
  cases hx : ("```json".data).isPrefixOf l
  · rfl
  · exfalso
    have h1 : "```json".data <+: l := List.isPrefixOf_iff_prefix.mp hx
    have h2 : "```".data <+: l :=
      List.IsPrefix.trans ⟨"json".data, rfl⟩ h1
    rw [← List.isPrefixOf_iff_prefix, h] at h2
    exact Bool.false_ne_true h2

theorem stripFenceL_no_fence (p : List Char)
    (h : ("```".data).isPrefixOf (trimL p) = false) :
    stripFenceL p = trimL p := by
  unfold stripFenceL
  simp [fence3_false_of _ h, h]

theorem stripFenceL_wrapJson (p : List Char) :
    stripFenceL ("```json\n".data ++ (p ++ "\n```".data)) = trimL p := by
  have hshape : "```json\n".data ++ (p ++ "\n```".data)
      = '`' :: (("``json\n".data ++ (p ++ "\n``".data)) ++ ['`']) := by
    rw [show ("```json\n".data) = '`' :: "``json\n".data from rfl,
        show ("\n```".data) = "\n``".data ++ ['`'] from rfl]
    simp [List.append_assoc]
  have htrim : trimL ("```json\n".data ++ (p ++ "\n```".data))
      = "```json\n".data ++ (p ++ "\n```".data) := by
    rw [hshape, trimL_fenced '`' '`' _ (by decide) (by decide)]
  have h7 : ("```json".data).isPrefixOf
      ("```json\n".data ++ (p ++ "\n```".data)) = true := by
    rw [show ("```json\n".data ++ (p ++ "\n```".data))
        = "```json".data ++ ('\n' :: (p ++ "\n```".data)) from by
      rw [show ("```json\n".data) = "```json".data ++ ['\n'] from rfl]
      simp [List.append_assoc]]
    simp [List.isPrefixOf_iff_prefix]
  have hslice :
      ((("```json\n".data ++ (p ++ "\n```".data)).take
          (("```json\n".data ++ (p ++ "\n```".data)).length - 3)).drop 7)
        = '\n' :: (p ++ ['\n']) := by
    have hA8 : ("```json\n".data).length = 8 := rfl
    have hB4 : ("\n```".data).length = 4 := rfl
    have hlen : ("```json\n".data ++ (p ++ "\n```".data)).length
        = p.length + 12 := by
      rw [List.length_append, List.length_append, hA8, hB4]
      omega
    rw [hlen]
    rw [show p.length + 12 - 3 = p.length + 9 from by omega]
    rw [List.take_append_eq_append_take]
    rw [List.take_of_length_le (by rw [hA8]; omega)]
    rw [show p.length + 9 - ("```json\n".data).length = p.length + 1 from by
      rw [hA8]; omega]
    rw [List.take_append_eq_append_take]
    rw [List.take_of_length_le (by omega : p.length ≤ p.length + 1)]
    rw [show p.length + 1 - p.length = 1 from by omega]
    rw [show ("\n```".data).take 1 = ['\n'] from rfl]
    rw [show ("```json\n".data) = "```json".data ++ ['\n'] from rfl]
    rw [List.append_assoc]
    rw [List.drop_left' (by rfl : ("```json".data).length = 7)]
    rfl
  unfold stripFenceL
  rw [htrim, h7]
  simp only [if_true]
  rw [hslice]
  rw [trimL_cons_ws '\n' _ (by decide), trimL_concat_ws '\n' _ (by decide)]

theorem stripFenceL_wrapBare (p : List Char) :
    stripFenceL ("```\n".data ++ (p ++ "\n```".data)) = trimL p := by
  have hshape : "```\n".data ++ (p ++ "\n```".data)
      = '`' :: (("``\n".data ++ (p ++ "\n``".data)) ++ ['`']) := by
    rw [show ("```\n".data) = '`' :: "``\n".data from rfl,
        show ("\n```".data) = "\n``".data ++ ['`'] from rfl]
    simp [List.append_assoc]
  have htrim : trimL ("```\n".data ++ (p ++ "\n```".data))
      = "```\n".data ++ (p ++ "\n```".data) := by
    rw [hshape, trimL_fenced '`' '`' _ (by decide) (by decide)]
  have hfj : ("```json".data).isPrefixOf
      ("```\n".data ++ (p ++ "\n```".data)) = false := by
    rw [show ("```\n".data ++ (p ++ "\n```".data))
        = '`' :: '`' :: '`' :: '\n' :: (p ++ "\n```".data) from rfl]
    rfl
  have h3 : ("```".data).isPrefixOf
      ("```\n".data ++ (p ++ "\n```".data)) = true := by
    rw [show ("```\n".data ++ (p ++ "\n```".data))
        = "```".data ++ ('\n' :: (p ++ "\n```".data)) from by
      rw [show ("```\n".data) = "```".data ++ ['\n'] from rfl]
      simp [List.append_assoc]]
    simp [List.isPrefixOf_iff_prefix]
  have hslice :
      ((("```\n".data ++ (p ++ "\n```".data)).take
          (("```\n".data ++ (p ++ "\n```".data)).length - 3)).drop 3)
        = '\n' :: (p ++ ['\n']) := by
    have hA4 : ("```\n".data).length = 4 := rfl
    have hB4 : ("\n```".data).length = 4 := rfl
    have hlen : ("```\n".data ++ (p ++ "\n```".data)).length
        = p.length + 8 := by
      rw [List.length_append, List.length_append, hA4, hB4]
      omega
    rw [hlen]
    rw [show p.length + 8 - 3 = p.length + 5 from by omega]
    rw [List.take_append_eq_append_take]
    rw [List.take_of_length_le (by rw [hA4]; omega)]
    rw [show p.length + 5 - ("```\n".data).length = p.length + 1 from by
      rw [hA4]; omega]
    rw [List.take_append_eq_append_take]
    rw [List.take_of_length_le (by omega : p.length ≤ p.length + 1)]
    rw [show p.length + 1 - p.length = 1 from by omega]
    rw [show ("\n```".data).take 1 = ['\n'] from rfl]
    rw [show ("```\n".data) = "```".data ++ ['\n'] from rfl]
    rw [List.append_assoc]
    rw [List.drop_left' (by rfl : ("```".data).length = 3)]
    rfl
  unfold stripFenceL
  rw [htrim, hfj]
  simp only [Bool.false_eq_true, if_false]
  rw [h3]
  simp only [if_true]
  rw [hslice]
  rw [trimL_cons_ws '\n' _ (by decide), trimL_concat_ws '\n' _ (by decide)]

theorem stripFence_wrapJsonFence (p : String)
    (h : ("```".data).isPrefixOf (trimL p.data) = false) :
    stripFence (wrapJsonFence p) = stripFence p := by
  unfold stripFence wrapJsonFence
  congr 1
  rw [string_data_append, string_data_append, List.append_assoc]
  rw [stripFenceL_wrapJson p.data, stripFenceL_no_fence p.data h]

theorem stripFence_wrapBareFence (p : String)
    (h : ("```".data).isPrefixOf (trimL p.data) = false) :
    stripFence (wrapBareFence p) = stripFence p := by
  unfold stripFence wrapBareFence
  congr 1
  rw [string_data_append, string_data_append, List.append_assoc]
  rw [stripFenceL_wrapBare p.data, stripFenceL_no_fence p.data h]

/-- C3: a payload wrapped in a tagged or untagged 3-backtick code
fence parses to the same value as the identical payload unwrapped
(provided the payload itself does not begin with a fence marker, as no
JSON payload does); and a stage-2 response that is not parseable JSON
after fence stripping ends the run in the retryable malformed-response
failure with no record exposed, rather than a crash or a partial
record. -/
theorem claim_C3_fence_and_malformed :
    (∀ p : String, ("```".data).isPrefixOf (trimL p.data) = false →
      jsonParse (stripFence (wrapJsonFence p)) = jsonParse (stripFence p) ∧
      jsonParse (stripFence (wrapBareFence p)) = jsonParse (stripFence p)) ∧
    (∀ (k : String) (now : Nat) (o : Oracle) (st : AppState) (a : AudioData)
        (f t s2 : String),
      st.audioData = some a → st.mediaFile = some f →
      o.transcription = CallResult.ok t → trimL t.data ≠ [] →
      o.studyGuide = CallResult.ok s2 →
      jsonParse (stripFence s2) = none →
      (handleGenerate (some k) now o st).1.error =
        some { message := msgMalformed, retryable := true } ∧
      (handleGenerate (some k) now o st).1.studyMaterials = none) := by
  constructor
  · intro p h
    exact ⟨congrArg jsonParse (stripFence_wrapJsonFence p h),
           congrArg jsonParse (stripFence_wrapBareFence p h)⟩
  · intro k now o st a f t s2 hA hF hT hTr hSG hP
    have hc : classifyError msgMalformed =
        { message := msgMalformed, retryable := true } := by decide
    constructor <;>
      simp [handleGenerate, hA, hF, hT, hTr, hSG, hP, failWith, finalizeRun, hc]

/-- C3 witness: a small JSON object payload, and a run whose stage-2
response is the unparseable text `"not json"`. -/
theorem claim_C3_witness :
    (jsonParse (stripFence (wrapJsonFence jsonPayloadW)) =
        jsonParse (stripFence jsonPayloadW) ∧
      jsonParse (stripFence (wrapBareFence jsonPayloadW)) =
        jsonParse (stripFence jsonPayloadW)) ∧
    ((handleGenerate (some "k") 0 witMalformedOracle witReadyState).1.error =
        some { message := msgMalformed, retryable := true } ∧
      (handleGenerate (some "k") 0 witMalformedOracle witReadyState).1.studyMaterials =
        none) :=
  ⟨claim_C3_fence_and_malformed.1 jsonPayloadW (by decide),
   claim_C3_fence_and_malformed.2 "k" 0 witMalformedOracle witReadyState wAudio
      "lec.mp3" "lecture text" "not json" rfl rfl rfl (by decide) rfl rfl⟩
